import Mathlib

/-
Verification of the Apollo gateway core (token_pool.py, proxy_routes.py,
kiro/truncation_state.py, kiro/truncation_recovery.py) against its
natural-language specification.

The Python code is shallowly embedded: the PostgreSQL tables behind
TokenPool become an explicit `Store` value (users, user_apikeys,
usage_records), SQL statements become pure functions on that value, and the
per-request orchestration of proxy_routes.py becomes explicit state passing.
Dates (`recorded_at::date` and the month boundary) are abstracted as natural
numbers: a usage record carries the day it was recorded on, and the quota
check receives the current day and the first day of the current month as
parameters.  The content-truncation digest (hashlib.sha256(...).hexdigest()
in truncation_state.py) is embedded as a full executable SHA-256 over the
UTF-8 bytes of the content.
-/

namespace Apollo

namespace Sha256

/-- Reduction modulo 2^32, the word size of SHA-256. -/
def mask32 (n : Nat) : Nat := n % 4294967296

/-- Right rotation of a 32-bit word. -/
def rotr (n x : Nat) : Nat := mask32 ((x >>> n) ||| (x <<< (32 - n)))

def bsig0 (x : Nat) : Nat := (rotr 2 x) ^^^ (rotr 13 x) ^^^ (rotr 22 x)

def bsig1 (x : Nat) : Nat := (rotr 6 x) ^^^ (rotr 11 x) ^^^ (rotr 25 x)

def ssig0 (x : Nat) : Nat := (rotr 7 x) ^^^ (rotr 18 x) ^^^ (x >>> 3)

def ssig1 (x : Nat) : Nat := (rotr 17 x) ^^^ (rotr 19 x) ^^^ (x >>> 10)

def ch (x y z : Nat) : Nat := (x &&& y) ^^^ ((x ^^^ 4294967295) &&& z)

def maj (x y z : Nat) : Nat := (x &&& y) ^^^ (x &&& z) ^^^ (y &&& z)

/-- SHA-256 round constants. -/
def K : List Nat :=
  [0x428A2F98, 0x71374491, 0xB5C0FBCF, 0xE9B5DBA5,
   0x3956C25B, 0x59F111F1, 0x923F82A4, 0xAB1C5ED5,
   0xD807AA98, 0x12835B01, 0x243185BE, 0x550C7DC3,
   0x72BE5D74, 0x80DEB1FE, 0x9BDC06A7, 0xC19BF174,
   0xE49B69C1, 0xEFBE4786, 0x0FC19DC6, 0x240CA1CC,
   0x2DE92C6F, 0x4A7484AA, 0x5CB0A9DC, 0x76F988DA,
   0x983E5152, 0xA831C66D, 0xB00327C8, 0xBF597FC7,
   0xC6E00BF3, 0xD5A79147, 0x06CA6351, 0x14292967,
   0x27B70A85, 0x2E1B2138, 0x4D2C6DFC, 0x53380D13,
   0x650A7354, 0x766A0ABB, 0x81C2C92E, 0x92722C85,
   0xA2BFE8A1, 0xA81A664B, 0xC24B8B70, 0xC76C51A3,
   0xD192E819, 0xD6990624, 0xF40E3585, 0x106AA070,
   0x19A4C116, 0x1E376C08, 0x2748774C, 0x34B0BCB5,
   0x391C0CB3, 0x4ED8AA4A, 0x5B9CCA4F, 0x682E6FF3,
   0x748F82EE, 0x78A5636F, 0x84C87814, 0x8CC70208,
   0x90BEFFFA, 0xA4506CEB, 0xBEF9A3F7, 0xC67178F2]

/-- The eight 32-bit working variables of the SHA-256 compression function. -/
structure Hash8 where
  a : Nat
  b : Nat
  c : Nat
  d : Nat
  e : Nat
  f : Nat
  g : Nat
  h : Nat
deriving Repr, DecidableEq

def H0 : Hash8 :=
  ⟨0x6a09e667, 0xbb67ae85, 0x3c6ef372, 0xa54ff53a, 0x510e527f, 0x9b05688c, 0x1f83d9ab, 0x5be0cd19⟩

/-- Merkle-Damgard padding: append 0x80, zero bytes, and the 64-bit
big-endian bit length, reaching a multiple of 64 bytes. -/
def padMessage (msg : List Nat) : List Nat :=
  let len := msg.length
  let bitLen := 8 * len
  let zeros := (184 - ((len + 1) % 64)) % 64
  msg ++ [0x80] ++ List.replicate zeros 0 ++
    ((List.range 8).map (fun i => (bitLen >>> (8 * (7 - i))) &&& 0xff))

/-- Group bytes into big-endian 32-bit words. -/
def toWords : List Nat → List Nat
  | b0 :: b1 :: b2 :: b3 :: rest =>
      (b0 <<< 24 ||| b1 <<< 16 ||| b2 <<< 8 ||| b3) :: toWords rest
  | _ => []

/-- Extend the 16-word block to the 64-word message schedule. -/
def extendW (w : List Nat) : Nat → List Nat
  | 0 => w
  | n + 1 =>
      let i := w.length
      let nw := mask32 (ssig1 (w.getD (i - 2) 0) + w.getD (i - 7) 0 +
                        ssig0 (w.getD (i - 15) 0) + w.getD (i - 16) 0)
      extendW (w ++ [nw]) n

def compressionRound (st : Hash8) (kt wt : Nat) : Hash8 :=
  let t1 := mask32 (st.h + bsig1 st.e + ch st.e st.f st.g + kt + wt)
  let t2 := mask32 (bsig0 st.a + maj st.a st.b st.c)
  ⟨mask32 (t1 + t2), st.a, st.b, st.c, mask32 (st.d + t1), st.e, st.f, st.g⟩

def processBlock (h : Hash8) (block : List Nat) : Hash8 :=
  let w := extendW (toWords block) 48
  let st := (w.zip K).foldl (fun s p => compressionRound s p.2 p.1) h
  ⟨mask32 (h.a + st.a), mask32 (h.b + st.b), mask32 (h.c + st.c), mask32 (h.d + st.d),
   mask32 (h.e + st.e), mask32 (h.f + st.f), mask32 (h.g + st.g), mask32 (h.h + st.h)⟩

def sha256Words (msg : List Nat) : Hash8 :=
  let padded := padMessage msg
  let blocks := (List.range (padded.length / 64)).map
    (fun i => (padded.drop (64 * i)).take 64)
  blocks.foldl processBlock H0

def hexChar (n : Nat) : Char :=
  if n < 10 then Char.ofNat (48 + n) else Char.ofNat (87 + n)

def wordHex (w : Nat) : List Char :=
  (List.range 8).map (fun i => hexChar ((w >>> (4 * (7 - i))) &&& 0xf))

/-- The lowercase hex digest of SHA-256, as the digit list of
hashlib.sha256(msg).hexdigest(). -/
def sha256HexChars (msg : List Nat) : List Char :=
  let h := sha256Words msg
  wordHex h.a ++ wordHex h.b ++ wordHex h.c ++ wordHex h.d ++
  wordHex h.e ++ wordHex h.f ++ wordHex h.g ++ wordHex h.h

/-- UTF-8 encoding of one code point, matching str.encode() in Python. -/
def utf8Char (c : Char) : List Nat :=
  let n := c.toNat
  if n < 0x80 then [n]
  else if n < 0x800 then [0xc0 ||| (n >>> 6), 0x80 ||| (n &&& 0x3f)]
  else if n < 0x10000 then
    [0xe0 ||| (n >>> 12), 0x80 ||| ((n >>> 6) &&& 0x3f), 0x80 ||| (n &&& 0x3f)]
  else
    [0xf0 ||| (n >>> 18), 0x80 ||| ((n >>> 12) &&& 0x3f),
     0x80 ||| ((n >>> 6) &&& 0x3f), 0x80 ||| (n &&& 0x3f)]

def utf8Bytes (cs : List Char) : List Nat := cs.flatMap utf8Char

end Sha256

/-! ## Data model: the tables behind TokenPool (token_pool.py)

One row of the `users` table, with the columns read by the embedded
operations (schema and `_row_to_user`). -/

structure UserRec where
  id : String
  name : String
  usertoken : String
  status : String
  assigned_token_id : String
  request_count : Int
  token_balance : Int
  token_granted : Int
  quota_daily_tokens : Int
  quota_monthly_tokens : Int
  quota_daily_requests : Int
deriving Repr, DecidableEq

/-- One row of the append-only `usage_records` table.  `recorded_date`
abstracts `recorded_at::date` as a day number; the SQL date comparisons
become equality and order on that number. -/
structure UsageRecord where
  user_id : String
  model : String
  prompt_tokens : Int
  completion_tokens : Int
  token_id : String
  recorded_date : Nat
deriving Repr, DecidableEq

/-- The relational state used by the embedded TokenPool operations:
`users`, `user_apikeys` (apikey, user_id) and `usage_records` rows. -/
structure Store where
  users : List UserRec
  user_apikeys : List (String × String)
  usage_records : List UsageRecord
deriving Repr, DecidableEq

/-- SELECT COUNT(*) FROM usage_records WHERE user_id = $1 AND recorded_at::date = today. -/
def count_requests_today (st : Store) (user_id : String) (today : Nat) : Nat :=
  (st.usage_records.filter (fun r => r.user_id == user_id && r.recorded_date == today)).length

/-- SELECT COALESCE(SUM(prompt_tokens+completion_tokens),0) ... for today. -/
def sum_tokens_today (st : Store) (user_id : String) (today : Nat) : Int :=
  ((st.usage_records.filter (fun r => r.user_id == user_id && r.recorded_date == today)).map
    (fun r => r.prompt_tokens + r.completion_tokens)).sum

/-- SELECT COALESCE(SUM(prompt_tokens+completion_tokens),0) ... since month start. -/
def sum_tokens_month (st : Store) (user_id : String) (monthStart : Nat) : Int :=
  ((st.usage_records.filter
      (fun r => r.user_id == user_id && decide (monthStart ≤ r.recorded_date))).map
    (fun r => r.prompt_tokens + r.completion_tokens)).sum

/-- TokenPool.check_quota: the admission decision.  Returns the first
rejection reason in order balance, daily requests, daily tokens, monthly
tokens — or none.  A missing user also yields none (the first early
return in the Python). -/
def check_quota (st : Store) (today monthStart : Nat) (user_id : String) : Option String :=
  match st.users.find? (fun u => u.id == user_id) with
  | none => none
  | some u =>
    if u.token_balance ≤ 0 then
      some ("Token balance exhausted (granted: " ++ toString u.token_granted ++ ")")
    else if 0 < u.quota_daily_requests ∧
        u.quota_daily_requests ≤ (count_requests_today st user_id today : Int) then
      some ("Daily request limit reached (" ++ toString u.quota_daily_requests ++ ")")
    else if 0 < u.quota_daily_tokens ∧
        u.quota_daily_tokens ≤ sum_tokens_today st user_id today then
      some ("Daily token limit reached (" ++ toString u.quota_daily_tokens ++ ")")
    else if 0 < u.quota_monthly_tokens ∧
        u.quota_monthly_tokens ≤ sum_tokens_month st user_id monthStart then
      some ("Monthly token limit reached (" ++ toString u.quota_monthly_tokens ++ ")")
    else none

/-- TokenPool.record_usage: INSERT one usage row, then
UPDATE users SET token_balance = GREATEST(0, token_balance - total). -/
def record_usage (st : Store) (today : Nat) (user_id model : String)
    (prompt_tokens completion_tokens : Int) (token_id : String) : Store :=
  let total := prompt_tokens + completion_tokens
  { st with
    usage_records := st.usage_records ++
      [⟨user_id, model, prompt_tokens, completion_tokens, token_id, today⟩],
    users := st.users.map (fun u =>
      if u.id == user_id then { u with token_balance := max 0 (u.token_balance - total) } else u) }

/-- The dictionary returned by TokenPool.grant_tokens. -/
structure GrantResult where
  user_id : String
  name : String
  token_balance : Int
  token_granted : Int
deriving Repr, DecidableEq

/-- TokenPool.grant_tokens: none for a missing user; otherwise the balance
becomes max(0, balance + amount) and only positive amounts add to the
lifetime-granted total. -/
def grant_tokens (st : Store) (user_id : String) (amount : Int) :
    Option (Store × GrantResult) :=
  match st.users.find? (fun u => u.id == user_id) with
  | none => none
  | some u =>
    let new_balance := max 0 (u.token_balance + amount)
    let new_granted := if 0 < amount then u.token_granted + amount else u.token_granted
    some ({ st with users := st.users.map (fun v =>
              if v.id == user_id then
                { v with token_balance := new_balance, token_granted := new_granted }
              else v) },
          ⟨user_id, u.name, new_balance, new_granted⟩)

/-- TokenPool.reset_user_usage: DELETE the usage rows of the user and zero
the request counter; the Bool is res == "UPDATE 1". -/
def reset_user_usage (st : Store) (user_id : String) : Store × Bool :=
  ({ st with
     usage_records := st.usage_records.filter (fun r => !(r.user_id == user_id)),
     users := st.users.map (fun u =>
       if u.id == user_id then { u with request_count := 0 } else u) },
   (st.users.filter (fun u => u.id == user_id)).length == 1)

/-- TokenPool.mark_user_used: UPDATE users SET request_count = request_count + 1. -/
def mark_user_used (st : Store) (user_id : String) : Store :=
  { st with users := st.users.map (fun u =>
      if u.id == user_id then { u with request_count := u.request_count + 1 } else u) }

/-- TokenPool.validate_apikey: join user_apikeys with users, requiring
status = 'active'; anything else is none. -/
def validate_apikey (st : Store) (apikey : String) : Option UserRec :=
  match st.user_apikeys.find? (fun kv => kv.1 == apikey) with
  | none => none
  | some kv =>
    match st.users.find? (fun u => u.id == kv.2) with
    | none => none
    | some u => if u.status == "active" then some u else none

/-! ## Model mappings (combo aliases) -/

/-- One row of the `model_mappings` table. -/
structure ModelMapping where
  name : String
  mapping_type : String
  targets : List String
  is_builtin : Bool
deriving Repr, DecidableEq

/-- TokenPool.resolve_combo: the targets list of a combo row, or none. -/
def resolve_combo (mappings : List ModelMapping) (nm : String) : Option (List String) :=
  match mappings.find? (fun m => m.name == nm && m.mapping_type == "combo") with
  | some m => some m.targets
  | none => none

/-- TokenPool.resolve_model: `if combo: return combo[0]` — a present and
non-empty targets list resolves to its first element, anything else
passes the name through. -/
def resolve_model (mappings : List ModelMapping) (nm : String) : String :=
  match resolve_combo mappings nm with
  | some (t :: _) => t
  | _ => nm

/-! ## Truncation state (kiro/truncation_state.py)

The two module-level dicts become association lists threaded through the
operations; a dict assignment replaces any previous binding of the key and
`dict.pop` removes the binding it returns.  `time.time()` timestamps are
passed in as a parameter `now`. -/

/-- The diagnostic dict a truncation entry carries; the code reads the keys
`size_bytes` and `reason` from it. -/
structure TruncationDiag where
  size_bytes : Nat
  reason : String
deriving Repr, DecidableEq

/-- The ToolTruncationInfo dataclass. -/
structure ToolTruncationInfo where
  tool_call_id : String
  tool_name : String
  truncation_info : TruncationDiag
  timestamp : Nat
deriving Repr, DecidableEq

/-- The ContentTruncationInfo dataclass. -/
structure ContentTruncationInfo where
  message_hash : String
  content_preview : String
  timestamp : Nat
deriving Repr, DecidableEq

/-- The module-level _tool_truncation_cache dict. -/
abbrev ToolCache := List (String × ToolTruncationInfo)

/-- The module-level _content_truncation_cache dict. -/
abbrev ContentCache := List (String × ContentTruncationInfo)

/-- save_tool_truncation: store an entry under the tool_call_id,
overwriting a previous entry for the same id. -/
def save_tool_truncation (cache : ToolCache) (now : Nat)
    (tool_call_id tool_name : String) (truncation_info : TruncationDiag) : ToolCache :=
  (tool_call_id, ⟨tool_call_id, tool_name, truncation_info, now⟩) ::
    List.filter (fun kv => !(kv.1 == tool_call_id)) cache

/-- get_tool_truncation: `_tool_truncation_cache.pop(tool_call_id, None)` —
return the entry if present and the cache with the binding removed. -/
def get_tool_truncation (cache : ToolCache) (tool_call_id : String) :
    Option ToolTruncationInfo × ToolCache :=
  ((List.find? (fun kv => kv.1 == tool_call_id) cache).map (fun kv => kv.2),
   List.filter (fun kv => !(kv.1 == tool_call_id)) cache)

/-- The digest key of save/get_content_truncation:
hashlib.sha256(content[:500].encode()).hexdigest()[:16]. -/
def contentHashDigest (content : String) : String :=
  String.mk ((Sha256.sha256HexChars (Sha256.utf8Bytes (content.data.take 500))).take 16)

/-- save_content_truncation: key the entry by the digest of the first 500
characters, store the first 200 characters as preview, return the digest. -/
def save_content_truncation (cache : ContentCache) (now : Nat) (content : String) :
    String × ContentCache :=
  let message_hash := contentHashDigest content
  (message_hash,
   (message_hash, ⟨message_hash, String.mk (content.data.take 200), now⟩) ::
     List.filter (fun kv => !(kv.1 == message_hash)) cache)

/-- get_content_truncation: recompute the digest of the first 500
characters and pop the entry stored under it, if any. -/
def get_content_truncation (cache : ContentCache) (content : String) :
    Option ContentTruncationInfo × ContentCache :=
  let message_hash := contentHashDigest content
  ((List.find? (fun kv => kv.1 == message_hash) cache).map (fun kv => kv.2),
   List.filter (fun kv => !(kv.1 == message_hash)) cache)

/-! ## Truncation recovery (kiro/truncation_recovery.py) -/

/-- The fixed content of the synthetic tool_result built by
generate_truncation_tool_result.  It does not interpolate the diagnostic:
size_bytes and reason are only used in the debug log line. -/
def toolTruncationNotice : String :=
  "[API Limitation] Your tool call was truncated by the upstream API due to output size limits.\n\nIf the tool result below shows an error or unexpected behavior, this is likely a CONSEQUENCE of the truncation, not the root cause. The tool call itself was cut off before it could be fully transmitted.\n\nRepeating the exact same operation will be truncated again. Consider adapting your approach."

/-- The dict returned by generate_truncation_tool_result. -/
structure SyntheticToolResult where
  result_type : String
  tool_use_id : String
  content : String
  is_error : Bool
deriving Repr, DecidableEq

/-- generate_truncation_tool_result: a synthetic tool_result whose content
is the fixed notice, flagged is_error. -/
def generate_truncation_tool_result (tool_name tool_use_id : String)
    (truncation_info : TruncationDiag) : SyntheticToolResult :=
  { result_type := "tool_result", tool_use_id := tool_use_id,
    content := toolTruncationNotice, is_error := true }

/-- generate_truncation_user_message: the fixed synthetic user message for
content truncation. -/
def generate_truncation_user_message : String :=
  "[System Notice] Your previous response was truncated by the API due to output size limitations. This is not an error on your part. If you need to continue, please adapt your approach rather than repeating the same output."

/-! ## Request orchestration (proxy_routes.py) -/

/-- The slice of ChatMessage the rewriting loop reads: role, string content
and the optional tool_call_id.  (The Pydantic model allows structured
content as well; the truncation-recovery branches only fire on string
content, which is what is embedded.) -/
structure ChatMessage where
  role : String
  content : String
  tool_call_id : Option String
deriving Repr, DecidableEq

/-- Python truthiness of msg.tool_call_id: present and non-empty. -/
def truthyId : Option String → Bool
  | some s => !(s == "")
  | none => false

/-- The two truncation caches as the rewriting loop sees them. -/
structure RewriteState where
  tool_cache : ToolCache
  content_cache : ContentCache
deriving Repr, DecidableEq

/-- The message-history rewriting loop of chat_completions (truncation
recovery): a tool message whose id has a pending entry gets its content
prefixed with the synthetic notice and the entry consumed; an assistant
message whose content digest has a pending entry is kept and followed by a
synthetic user message.  Returns the rewritten messages, the remaining
caches, and the two counters tool_results_modified and
content_notices_added. -/
def rewriteMessages (caches : RewriteState) :
    List ChatMessage → List ChatMessage × RewriteState × Nat × Nat
  | [] => ([], caches, 0, 0)
  | msg :: rest =>
    if msg.role == "tool" && truthyId msg.tool_call_id then
      let tid := msg.tool_call_id.getD ""
      let looked := get_tool_truncation caches.tool_cache tid
      match looked.1 with
      | some info =>
        let synthetic := generate_truncation_tool_result info.tool_name tid info.truncation_info
        let modified :=
          { msg with content :=
              synthetic.content ++ "\n\n---\n\nOriginal tool result:\n" ++ msg.content }
        match rewriteMessages { caches with tool_cache := looked.2 } rest with
        | (ms, cs, tm, cn) => (modified :: ms, cs, tm + 1, cn)
      | none =>
        match rewriteMessages { caches with tool_cache := looked.2 } rest with
        | (ms, cs, tm, cn) => (msg :: ms, cs, tm, cn)
    else if msg.role == "assistant" && !(msg.content == "") then
      let looked := get_content_truncation caches.content_cache msg.content
      match looked.1 with
      | some _ =>
        match rewriteMessages { caches with content_cache := looked.2 } rest with
        | (ms, cs, tm, cn) =>
          (msg :: ⟨"user", generate_truncation_user_message, none⟩ :: ms, cs, tm, cn + 1)
      | none =>
        match rewriteMessages { caches with content_cache := looked.2 } rest with
        | (ms, cs, tm, cn) => (msg :: ms, cs, tm, cn)
    else
      match rewriteMessages caches rest with
      | (ms, cs, tm, cn) => (msg :: ms, cs, tm, cn)

/-- Outcome of the admission portion of chat_completions: either an
HTTPException (status, detail) short-circuits before any upstream work, or
the request proceeds as the validated user. -/
inductive GateResult where
  | httpError (status : Nat) (detail : String)
  | proceed (user : UserRec)
deriving Repr, DecidableEq

/-- The gate run by chat_completions before credential selection and the
upstream call: _validate_user (missing key 401, invalid key 401) and then
check_quota (429).  A proceed value is the point at which the orchestrator
goes on to pick a credential and dispatch upstream. -/
def chat_admission (st : Store) (today monthStart : Nat) (usertoken : String) : GateResult :=
  if usertoken == "" then .httpError 401 "Missing API key"
  else
    match validate_apikey st usertoken with
    | none => .httpError 401 "Invalid API key"
    | some user =>
      match check_quota st today monthStart user.id with
      | some reason => .httpError 429 ("Quota exceeded: " ++ reason)
      | none => .proceed user

/-! ### Streaming cleanup (stream_wrapper in chat_completions)

A chunk is abstracted to the usage its SSE payload carries, if any
(`chunk_data["usage"]` with zero-defaulted prompt/completion counts); the
JSON transport itself is the external protocol client.  The three exit
paths of the generator are: the stream ran to the end, the client
disconnected (GeneratorExit) after consuming some number of chunks, or the
producer raised after some number of chunks. -/

inductive StreamExit where
  | completed
  | clientDisconnected (consumed : Nat)
  | failed (consumed : Nat)
deriving Repr, DecidableEq

/-- The chunks the wrapper body processed before the exit. -/
def consumedChunks (chunks : List (Option (Nat × Nat))) : StreamExit → List (Option (Nat × Nat))
  | .completed => chunks
  | .clientDisconnected k => chunks.take k
  | .failed k => chunks.take k

/-- accumulated_usage after processing a chunk sequence: each usage-bearing
chunk overwrites both counters (with .get defaults of 0), starting from
zero. -/
def accumulateUsage (chunks : List (Option (Nat × Nat))) : Nat × Nat :=
  chunks.foldl (fun acc c => match c with | some u => u | none => acc) (0, 0)

/-- What the `finally` block of stream_wrapper did: released the upstream
connection, bumped the two used-markers, and recorded usage if any. -/
structure StreamCleanupResult where
  connection_closed : Bool
  token_marked_used : Bool
  user_marked_used : Bool
  recorded_usage : Option (Nat × Nat)
deriving Repr, DecidableEq

/-- stream_wrapper, in terms of its observable effects: whichever way the
generator exits, the `finally` block closes the http client, marks the
token and user used, and calls record_usage once with the accumulated
counts when `p_tok or c_tok` is truthy. -/
def stream_finalize (st : Store) (today : Nat) (uid model tok : String)
    (chunks : List (Option (Nat × Nat))) (ex : StreamExit) : Store × StreamCleanupResult :=
  let acc := accumulateUsage (consumedChunks chunks ex)
  let st1 := mark_user_used st uid
  if acc.1 ≠ 0 ∨ acc.2 ≠ 0 then
    (record_usage st1 today uid model (acc.1 : Int) (acc.2 : Int) tok,
     ⟨true, true, true, some acc⟩)
  else
    (st1, ⟨true, true, true, none⟩)

/-! ## Spec-side admission conditions (section 4.3 of the spec)

The four conditions of checkAdmission as the spec words them; each cap
condition carries the cap > 0 guard, which is how a cap of 0 means
unlimited. -/

/-- Spec condition (a): balance ≤ 0. -/
abbrev firesBalance (u : UserRec) : Prop := u.token_balance ≤ 0

/-- Spec condition (b): daily request cap > 0 and today's request count ≥ cap. -/
abbrev firesDailyRequests (st : Store) (today : Nat) (u : UserRec) : Prop :=
  0 < u.quota_daily_requests ∧
    u.quota_daily_requests ≤ (count_requests_today st u.id today : Int)

/-- Spec condition (c): daily token cap > 0 and today's summed tokens ≥ cap. -/
abbrev firesDailyTokens (st : Store) (today : Nat) (u : UserRec) : Prop :=
  0 < u.quota_daily_tokens ∧ u.quota_daily_tokens ≤ sum_tokens_today st u.id today

/-- Spec condition (d): monthly token cap > 0 and this month's summed tokens ≥ cap. -/
abbrev firesMonthlyTokens (st : Store) (monthStart : Nat) (u : UserRec) : Prop :=
  0 < u.quota_monthly_tokens ∧
    u.quota_monthly_tokens ≤ sum_tokens_month st u.id monthStart

/-- All per-user balances are non-negative. -/
abbrev balancesNonneg (st : Store) : Prop := ∀ u ∈ st.users, 0 ≤ u.token_balance

/-! ## C4: the balance floor -/

/-- One call against the Quota Ledger that can move a balance: a usage
recording or a grant (whose amount may be negative). -/
inductive LedgerOp where
  | record (today : Nat) (model : String) (prompt_tokens completion_tokens : Int)
      (token_id : String)
  | grant (amount : Int)
deriving Repr, DecidableEq

/-- Apply one ledger call for the given tenant. -/
def applyLedgerOp (uid : String) (st : Store) : LedgerOp → Store
  | .record today model p c tok => record_usage st today uid model p c tok
  | .grant a =>
    match grant_tokens st uid a with
    | some r => r.1
    | none => st

/-- Apply a sequence of ledger calls in order. -/
def applyLedgerOps (uid : String) (st : Store) (ops : List LedgerOp) : Store :=
  ops.foldl (applyLedgerOp uid) st

/-! ## C3: the daily-token-cap scenario

The spec scenario: cap 50, 45 tokens already recorded today, a new request
about to add 15.  check_quota compares the already-recorded sum with the
cap (45 < 50), so that request is admitted; the cap only rejects once the
recorded sum has reached it. -/

def c3user : UserRec :=
  ⟨"u3", "Carol", "apollo-tok3", "active", "", 2, 100, 100, 50, 0, 0⟩

def c3store : Store :=
  ⟨[c3user], [("ap-key3", "u3")],
   [⟨"u3", "claude-sonnet-4.5", 40, 5, "t1", 10⟩]⟩

/-! ## Substring occurrence (used to state that a diagnostic does not
appear in a rewritten message) -/

/-- Bool test that the first list leads the second. -/
def leadsWith : List Char → List Char → Bool
  | [], _ => true
  | _ :: _, [] => false
  | a :: as, b :: bs => a == b && leadsWith as bs

/-- Bool test that `needle` occurs contiguously anywhere inside `hay`. -/
def containsStr (hay needle : String) : Bool :=
  (List.range (hay.data.length + 1)).any (fun i => leadsWith needle.data (hay.data.drop i))

/-! ## Fixtures for the truncation-recovery claims -/

def c5info : ToolTruncationInfo := ⟨"call_1", "Write", ⟨5000, "ZZdiag42"⟩, 3⟩

def c5caches : RewriteState := ⟨[("call_1", c5info)], []⟩

def c5msg : ChatMessage := ⟨"tool", "tool output payload", some "call_1"⟩

def c6text1 : String := String.mk (List.replicate 500 'a')

def c6text2 : String := String.mk (List.replicate 500 'a' ++ ['b'])

def c1chunks : List (Option (Nat × Nat)) := [none, some (7, 3), some (9, 4)]

/-! ## Helper lemmas -/

/-- A per-id UPDATE keeps find?-by-id pointed at the same (updated) row. -/
theorem find_map_update (f : UserRec → UserRec) (hf : ∀ v, (f v).id = v.id) :
    ∀ {l : List UserRec} {uid : String} {u : UserRec},
      l.find? (fun v => v.id == uid) = some u →
      (l.map (fun v => if v.id == uid then f v else v)).find? (fun v => v.id == uid)
        = some (f u)
  | [], _, _, h => by simp at h
  | a :: l, uid, u, h => by
    by_cases hb : (a.id == uid) = true
    · have ha : a = u := by
        rw [List.find?_cons_of_pos (p := fun (v : UserRec) => v.id == uid) l hb] at h
        exact Option.some.inj h
      subst ha
      rw [List.map_cons, if_pos hb]
      exact List.find?_cons_of_pos (p := fun (v : UserRec) => v.id == uid) _
        (show ((f a).id == uid) = true by rw [hf]; exact hb)
    · rw [List.find?_cons_of_neg (p := fun (v : UserRec) => v.id == uid) l hb] at h
      rw [List.map_cons, if_neg hb,
        List.find?_cons_of_neg (p := fun (v : UserRec) => v.id == uid) _ hb]
      exact find_map_update f hf h

/-- Popping a key from the tool cache makes a second lookup miss. -/
theorem pop_then_get_none (cache : ToolCache) (tid : String) :
    (get_tool_truncation (get_tool_truncation cache tid).2 tid).1 = none := by
  simp only [get_tool_truncation, Option.map_eq_none']
  apply List.find?_eq_none.mpr
  intro kv hkv
  have := (List.mem_filter.mp hkv).2
  simpa using this

/-- Recording usage adds its total to the day's token sum of that user. -/
theorem sum_today_record (st : Store) (today : Nat) (uid model tok : String)
    (p c : Int) :
    sum_tokens_today (record_usage st today uid model p c tok) uid today
      = sum_tokens_today st uid today + (p + c) := by
  simp [sum_tokens_today, record_usage, List.filter_append]

/-! ## Concrete fixtures used by witnesses and counterexamples -/

def demoUser : UserRec :=
  ⟨"u1", "Alice", "apollo-tok1", "active", "", 7, 120, 200, 50, 0, 0⟩

def demoUser2 : UserRec :=
  ⟨"u2", "Bob", "apollo-tok2", "suspended", "", 3, 40, 40, 0, 0, 0⟩

def demoStore : Store :=
  ⟨[demoUser, demoUser2],
   [("ap-key1", "u1"), ("ap-key2", "u2")],
   [⟨"u1", "claude-sonnet-4.5", 40, 5, "t1", 10⟩,
    ⟨"u2", "claude-opus-4.6", 1, 2, "t1", 9⟩]⟩

def demoMappings : List ModelMapping :=
  [⟨"kiro-opus-4-6", "combo", ["claude-opus-4.6"], true⟩,
   ⟨"empty-combo", "combo", [], false⟩]

/-! ## Claims -/

/-- C2: for every existing tenant, check_quota returns the reason of the
first condition that fires among (a) balance ≤ 0, (b) daily request cap,
(c) daily token cap, (d) monthly token cap, and none when none fires; each
cap condition includes its cap > 0 guard, so a cap of 0 disables that
check — with all three caps 0 the outcome is independent of the usage
history and is decided by the balance alone. -/
theorem check_quota_first_reason (st : Store) (today monthStart : Nat) (uid : String)
    (u : UserRec) (hu : st.users.find? (fun v => v.id == uid) = some u) :
    check_quota st today monthStart uid =
      (if firesBalance u then
        some ("Token balance exhausted (granted: " ++ toString u.token_granted ++ ")")
       else if firesDailyRequests st today u then
        some ("Daily request limit reached (" ++ toString u.quota_daily_requests ++ ")")
       else if firesDailyTokens st today u then
        some ("Daily token limit reached (" ++ toString u.quota_daily_tokens ++ ")")
       else if firesMonthlyTokens st monthStart u then
        some ("Monthly token limit reached (" ++ toString u.quota_monthly_tokens ++ ")")
       else none) ∧
    (u.quota_daily_requests = 0 ∧ u.quota_daily_tokens = 0 ∧ u.quota_monthly_tokens = 0 →
      ∀ recs, check_quota { st with usage_records := recs } today monthStart uid =
        if u.token_balance ≤ 0 then
          some ("Token balance exhausted (granted: " ++ toString u.token_granted ++ ")")
        else none) := by
  have hid : u.id = uid := by
    have := List.find?_some hu
    exact eq_of_beq this
  subst hid
  constructor
  · simp only [check_quota, hu]
  · rintro ⟨h1, h2, h3⟩ recs
    have hu2 : ({ st with usage_records := recs } : Store).users.find?
        (fun v => v.id == u.id) = some u := hu
    simp only [check_quota, hu2, h1, h2, h3]
    by_cases hb : u.token_balance ≤ 0
    · rw [if_pos hb, if_pos hb]
    · rw [if_neg hb, if_neg hb]
      simp

/-- Witness for C2 at a concrete store and tenant. -/
theorem check_quota_first_reason_witness :
    check_quota demoStore 10 1 "u1" =
      (if firesBalance demoUser then
        some ("Token balance exhausted (granted: " ++ toString demoUser.token_granted ++ ")")
       else if firesDailyRequests demoStore 10 demoUser then
        some ("Daily request limit reached (" ++ toString demoUser.quota_daily_requests ++ ")")
       else if firesDailyTokens demoStore 10 demoUser then
        some ("Daily token limit reached (" ++ toString demoUser.quota_daily_tokens ++ ")")
       else if firesMonthlyTokens demoStore 1 demoUser then
        some ("Monthly token limit reached (" ++ toString demoUser.quota_monthly_tokens ++ ")")
       else none) :=
  (check_quota_first_reason demoStore 10 1 "u1" demoUser (by decide)).1

/-- C9: a tenant id that does not exist in the store makes check_quota
return none, the same value as a passing admission check. -/
theorem check_quota_unknown_tenant (st : Store) (today monthStart : Nat) (uid : String)
    (h : st.users.find? (fun v => v.id == uid) = none) :
    check_quota st today monthStart uid = none := by
  unfold check_quota
  rw [h]

/-- Witness for C9 on an empty store. -/
theorem check_quota_unknown_tenant_witness :
    check_quota ⟨[], [], []⟩ 0 0 "nobody" = none :=
  check_quota_unknown_tenant ⟨[], [], []⟩ 0 0 "nobody" rfl

/-- C7: resolve_model returns the first element of a known alias with a
non-empty target list, and passes the name through when the name is not an
alias or the target list is empty. -/
theorem resolve_model_first_target (mappings : List ModelMapping) (nm : String) :
    (∀ t ts, resolve_combo mappings nm = some (t :: ts) → resolve_model mappings nm = t) ∧
    (resolve_combo mappings nm = none → resolve_model mappings nm = nm) ∧
    (resolve_combo mappings nm = some [] → resolve_model mappings nm = nm) :=
  ⟨fun t ts h => by simp [resolve_model, h],
   fun h => by simp [resolve_model, h],
   fun h => by simp [resolve_model, h]⟩

/-- Witness for C7: a built-in alias, an empty alias and an unmapped name. -/
theorem resolve_model_first_target_witness :
    resolve_model demoMappings "kiro-opus-4-6" = "claude-opus-4.6" ∧
    resolve_model demoMappings "empty-combo" = "empty-combo" ∧
    resolve_model demoMappings "unmapped-model" = "unmapped-model" :=
  ⟨(resolve_model_first_target demoMappings "kiro-opus-4-6").1 "claude-opus-4.6" [] (by decide),
   (resolve_model_first_target demoMappings "empty-combo").2.2 (by decide),
   (resolve_model_first_target demoMappings "unmapped-model").2.1 (by decide)⟩

/-- C8: reset_user_usage deletes exactly the tenant's usage records (other
tenants' records survive in order), zeroes the request counter, and leaves
every other field of the tenant — balance, lifetime grants, quota caps,
identity and status — unchanged, as well as the api-key table and all
other user rows. -/
theorem reset_user_usage_frame (st : Store) (uid : String) (u : UserRec)
    (hu : st.users.find? (fun v => v.id == uid) = some u) :
    (reset_user_usage st uid).1.usage_records
        = st.usage_records.filter (fun r => !(r.user_id == uid)) ∧
    (reset_user_usage st uid).1.users.find? (fun v => v.id == uid)
        = some { u with request_count := 0 } ∧
    (reset_user_usage st uid).1.user_apikeys = st.user_apikeys ∧
    (∀ v ∈ st.users, (v.id == uid) = false → v ∈ (reset_user_usage st uid).1.users) := by
  refine ⟨rfl, ?_, rfl, ?_⟩
  · exact find_map_update (fun v => { v with request_count := 0 }) (fun v => rfl) hu
  · intro v hv hne
    exact List.mem_map.mpr ⟨v, hv, by simp [hne]⟩

/-- Witness for C8 on the demo store. -/
theorem reset_user_usage_frame_witness :
    (reset_user_usage demoStore "u1").1.usage_records
        = demoStore.usage_records.filter (fun r => !(r.user_id == "u1")) ∧
    (reset_user_usage demoStore "u1").1.users.find? (fun v => v.id == "u1")
        = some { demoUser with request_count := 0 } ∧
    (reset_user_usage demoStore "u1").1.user_apikeys = demoStore.user_apikeys :=
  ⟨(reset_user_usage_frame demoStore "u1" demoUser (by decide)).1,
   (reset_user_usage_frame demoStore "u1" demoUser (by decide)).2.1,
   (reset_user_usage_frame demoStore "u1" demoUser (by decide)).2.2.1⟩

/-- Each single ledger call preserves non-negativity of every balance. -/
theorem applyLedgerOp_nonneg (uid : String) (st : Store) (op : LedgerOp)
    (h : balancesNonneg st) : balancesNonneg (applyLedgerOp uid st op) := by
  cases op with
  | record today model p c tok =>
    intro u hu
    simp only [applyLedgerOp, record_usage, List.mem_map] at hu
    obtain ⟨v, hv, rfl⟩ := hu
    by_cases hc : (v.id == uid) = true
    · simp [hc, le_max_left]
    · rw [if_neg hc]
      exact h v hv
  | grant a =>
    simp only [applyLedgerOp]
    cases hg : grant_tokens st uid a with
    | none => exact h
    | some r =>
      intro u hu
      unfold grant_tokens at hg
      cases hf : st.users.find? (fun v => v.id == uid) with
      | none => rw [hf] at hg; exact absurd hg (by simp)
      | some u0 =>
        rw [hf] at hg
        simp only [Option.some.injEq] at hg
        subst hg
        simp only [List.mem_map] at hu
        obtain ⟨v, hv, rfl⟩ := hu
        by_cases hc : (v.id == uid) = true
        · simp [hc, le_max_left]
        · simp only [if_neg hc]
          exact h v hv

/-- C4: over any sequence of record_usage and grant_tokens calls
(grant amounts may be negative), every stored balance stays ≥ 0 after each
call, and a single record_usage whose total meets or exceeds the current
balance clamps the stored balance to exactly zero. -/
theorem balance_never_negative (uid : String) (ops : List LedgerOp) (st : Store)
    (h : balancesNonneg st) :
    (∀ n, balancesNonneg (applyLedgerOps uid st (ops.take n))) ∧
    (∀ (today : Nat) (model : String) (p c : Int) (tok : String) (u : UserRec),
       st.users.find? (fun v => v.id == uid) = some u →
       u.token_balance ≤ p + c →
       (record_usage st today uid model p c tok).users.find? (fun v => v.id == uid)
         = some { u with token_balance := 0 }) := by
  constructor
  · have hall : ∀ (l : List LedgerOp) (s : Store),
        balancesNonneg s → balancesNonneg (applyLedgerOps uid s l) := by
      intro l
      induction l with
      | nil => exact fun s hs => hs
      | cons o l ih => exact fun s hs => ih _ (applyLedgerOp_nonneg uid s o hs)
    exact fun n => hall (ops.take n) st h
  · intro today model p c tok u hu hle
    have := find_map_update
      (fun v => { v with token_balance := max 0 (v.token_balance - (p + c)) })
      (fun v => rfl) hu
    rw [record_usage]
    convert this using 3
    have : u.token_balance - (p + c) ≤ 0 := by omega
    omega

/-- Witness for C4: a sequence that overdraws the balance and a clamping
record_usage call on the demo store. -/
theorem balance_never_negative_witness :
    balancesNonneg demoStore ∧
    balancesNonneg (applyLedgerOps "u1" demoStore
      ([.record 10 "claude-sonnet-4.5" 80 60 "t1", .grant (-30),
        .record 11 "claude-opus-4.6" 500 0 "t1", .grant 25].take 3)) ∧
    (record_usage demoStore 10 "u1" "claude-sonnet-4.5" 100 30 "t1").users.find?
        (fun v => v.id == "u1") = some { demoUser with token_balance := 0 } :=
  ⟨by decide,
   (balance_never_negative "u1"
      [.record 10 "claude-sonnet-4.5" 80 60 "t1", .grant (-30),
       .record 11 "claude-opus-4.6" 500 0 "t1", .grant 25] demoStore (by decide)).1 3,
   (balance_never_negative "u1" [] demoStore (by decide)).2 10 "claude-sonnet-4.5"
      100 30 "t1" demoUser (by decide) (by decide)⟩

/-- C10: validate_apikey only ever returns a tenant whose status is
active; a stored key owned by a non-active tenant validates to none, and
the admission gate then rejects with 401 Invalid API key — before the
quota check can produce a 429. -/
theorem validate_apikey_requires_active (st : Store) (key : String) :
    (∀ v, validate_apikey st key = some v → v.status = "active") ∧
    (∀ (today monthStart : Nat) (uid : String) (u : UserRec),
      ¬ key = "" →
      st.user_apikeys.find? (fun kv => kv.1 == key) = some (key, uid) →
      st.users.find? (fun v => v.id == uid) = some u →
      ¬ u.status = "active" →
      validate_apikey st key = none ∧
      chat_admission st today monthStart key = .httpError 401 "Invalid API key") := by
  constructor
  · intro v hv
    cases hk : st.user_apikeys.find? (fun kv => kv.1 == key) with
    | none => simp [validate_apikey, hk] at hv
    | some kv =>
      cases hus : st.users.find? (fun w => w.id == kv.2) with
      | none => simp [validate_apikey, hk, hus] at hv
      | some u =>
        by_cases hs : (u.status == "active") = true
        · have huv : validate_apikey st key = some u := by
            simp [validate_apikey, hk, hus, hs]
          rw [huv] at hv
          have hueq : u = v := Option.some.inj hv
          subst hueq
          exact eq_of_beq hs
        · have huv : validate_apikey st key = none := by
            simp [validate_apikey, hk, hus, hs]
          rw [huv] at hv
          exact absurd hv (by simp)
  · intro today monthStart uid u hne hk hus hstat
    have hsf : (u.status == "active") = false := by
      simpa using hstat
    have hval : validate_apikey st key = none := by
      simp [validate_apikey, hk, hus, hsf]
    refine ⟨hval, ?_⟩
    unfold chat_admission
    rw [if_neg (by simpa using hne), hval]

/-- Witness for C10: the suspended demo tenant still holds key ap-key2. -/
theorem validate_apikey_requires_active_witness :
    validate_apikey demoStore "ap-key2" = none ∧
    chat_admission demoStore 10 1 "ap-key2" = .httpError 401 "Invalid API key" :=
  (validate_apikey_requires_active demoStore "ap-key2").2 10 1 "u2" demoUser2
    (by decide) (by decide) (by decide) (by decide)

/-- C3 counterexample: the tenant of the spec scenario — daily token cap
50, 45 tokens recorded today, a pending request worth 15 more — is NOT
rejected: check_quota returns none and the admission gate proceeds toward
the upstream call. -/
theorem daily_cap_scenario_counterexample :
    c3user.quota_daily_tokens = 50 ∧
    sum_tokens_today c3store "u3" 10 = 45 ∧
    check_quota c3store 10 1 "u3" = none ∧
    chat_admission c3store 10 1 "ap-key3" = .proceed c3user :=
  ⟨by decide, by decide, by decide, by decide⟩

/-- C3 amended: with daily token cap 50 and 45 tokens recorded today, the
new request is admitted (the cap compares recorded usage, and 45 < 50);
once that request's 15 tokens are recorded — total 60 ≥ 50 — the next
admission check rejects with the daily-token-cap reason, which the gate
surfaces before any upstream call. -/
theorem daily_token_cap_rejects_after_recorded (st : Store) (today monthStart : Nat)
    (uid : String) (u : UserRec)
    (hu : st.users.find? (fun v => v.id == uid) = some u)
    (hbal : 0 < u.token_balance)
    (hreq : u.quota_daily_requests = 0)
    (hmon : u.quota_monthly_tokens = 0)
    (hcap : u.quota_daily_tokens = 50)
    (hsum : sum_tokens_today st uid today = 45) :
    check_quota st today monthStart uid = none ∧
    (∀ (model tok : String) (p c : Int), p + c = 15 → 15 < u.token_balance →
      check_quota (record_usage st today uid model p c tok) today monthStart uid
        = some "Daily token limit reached (50)") := by
  constructor
  · simp only [check_quota, hu, hreq, hmon, hcap, hsum]
    rw [if_neg (by omega), if_neg (by omega), if_neg (by omega), if_neg (by omega)]
  · intro model tok p c hpc hb15
    have hsum2 : sum_tokens_today (record_usage st today uid model p c tok) uid today
        = 60 := by
      rw [sum_today_record, hsum, hpc]
      norm_num
    have hfind2 : (record_usage st today uid model p c tok).users.find?
        (fun v => v.id == uid)
        = some { u with token_balance := max 0 (u.token_balance - (p + c)) } := by
      simp only [record_usage]
      exact find_map_update
        (fun v => { v with token_balance := max 0 (v.token_balance - (p + c)) })
        (fun v => rfl) hu
    simp only [check_quota, hfind2, hsum2, hreq, hcap]
    rw [if_neg (show ¬ (max 0 (u.token_balance - (p + c)) ≤ 0) from by
      rw [hpc]
      intro hle
      have h2 := le_max_right (0 : Int) (u.token_balance - 15)
      omega)]
    norm_num
    decide

/-- Witness for the amended C3 on the concrete scenario store. -/
theorem daily_token_cap_rejects_after_recorded_witness :
    check_quota c3store 10 1 "u3" = none ∧
    check_quota (record_usage c3store 10 "u3" "claude-sonnet-4.5" 10 5 "t1") 10 1 "u3"
      = some "Daily token limit reached (50)" :=
  ⟨(daily_token_cap_rejects_after_recorded c3store 10 1 "u3" c3user (by decide)
      (by decide) (by decide) (by decide) (by decide) (by decide)).1,
   (daily_token_cap_rejects_after_recorded c3store 10 1 "u3" c3user (by decide)
      (by decide) (by decide) (by decide) (by decide) (by decide)).2
      "claude-sonnet-4.5" "t1" 10 5 (by decide) (by decide)⟩

/-- C5 amended: a tool-result message whose tool_call_id has a pending
tool-truncation entry is rewritten so that its content is the fixed
explanatory notice, a separator, and then the original content verbatim
(the stored diagnostic is not interpolated into the content — it is only
logged); the consumed entry cannot be retrieved again by a later lookup of
the same id. -/
theorem tool_truncation_rewrite (caches : RewriteState) (msg : ChatMessage)
    (tid : String) (info : ToolTruncationInfo)
    (hrole : msg.role = "tool") (hid : msg.tool_call_id = some tid) (hne : ¬ tid = "")
    (hfound : (get_tool_truncation caches.tool_cache tid).1 = some info) :
    rewriteMessages caches [msg]
      = ([{ msg with content :=
              toolTruncationNotice ++ "\n\n---\n\nOriginal tool result:\n" ++ msg.content }],
         { caches with tool_cache := (get_tool_truncation caches.tool_cache tid).2 }, 1, 0) ∧
    (get_tool_truncation (get_tool_truncation caches.tool_cache tid).2 tid).1 = none := by
  refine ⟨?_, pop_then_get_none caches.tool_cache tid⟩
  have htr : (msg.role == "tool" && truthyId (some tid)) = true := by
    rw [hrole]
    simp [truthyId, hne]
  simp [rewriteMessages, hid, htr, hfound, generate_truncation_tool_result]

/-- Witness for the amended C5 on a concrete cache and message. -/
theorem tool_truncation_rewrite_witness :
    rewriteMessages c5caches [c5msg]
      = ([{ c5msg with content :=
              toolTruncationNotice ++ "\n\n---\n\nOriginal tool result:\n" ++ c5msg.content }],
         { c5caches with tool_cache := (get_tool_truncation c5caches.tool_cache "call_1").2 },
         1, 0) ∧
    (get_tool_truncation (get_tool_truncation c5caches.tool_cache "call_1").2 "call_1").1
      = none :=
  tool_truncation_rewrite c5caches c5msg "call_1" c5info rfl rfl (by decide) (by decide)

set_option maxRecDepth 100000 in
/-- C5 counterexample: the claim says the injected material includes the
stored truncation diagnostic; in fact the rewritten content is the fixed
notice plus the original content, and neither the diagnostic reason string
nor the byte size occurs anywhere in it. -/
theorem tool_truncation_rewrite_counterexample :
    ((rewriteMessages c5caches [c5msg]).1.headD ⟨"", "", none⟩).content
      = toolTruncationNotice ++ "\n\n---\n\nOriginal tool result:\n" ++ "tool output payload" ∧
    containsStr (((rewriteMessages c5caches [c5msg]).1.headD ⟨"", "", none⟩).content)
      c5info.truncation_info.reason = false ∧
    containsStr (((rewriteMessages c5caches [c5msg]).1.headD ⟨"", "", none⟩).content)
      "5000" = false :=
  ⟨by decide, by decide, by decide⟩

set_option maxRecDepth 10000 in
/-- C6 amended: saving then taking the same text returns the saved entry,
whose key is the digest of the text's first 500 characters; taking a
different text from the cache holding just that entry misses exactly when
the digest of the other text's first 500 characters differs — texts that
agree on their first 500 characters share the key, so a different text can
still return the entry. -/
theorem content_truncation_roundtrip (cache : ContentCache) (now : Nat) (t t2 : String) :
    (get_content_truncation (save_content_truncation cache now t).2 t).1
      = some ⟨contentHashDigest t, String.mk (t.data.take 200), now⟩ ∧
    (save_content_truncation cache now t).1 = contentHashDigest t ∧
    contentHashDigest t
      = String.mk ((Sha256.sha256HexChars (Sha256.utf8Bytes (t.data.take 500))).take 16) ∧
    ((get_content_truncation (save_content_truncation [] now t).2 t2).1 = none
       ↔ ¬ contentHashDigest t2 = contentHashDigest t) := by
  refine ⟨?_, rfl, rfl, ?_⟩
  · simp [get_content_truncation, save_content_truncation]
  · simp only [get_content_truncation, save_content_truncation, List.filter_nil]
    by_cases hd : (contentHashDigest t == contentHashDigest t2) = true
    · have : contentHashDigest t2 = contentHashDigest t := (eq_of_beq hd).symm
      simp [List.find?_cons_of_pos, hd, this]
    · have hne : ¬ contentHashDigest t2 = contentHashDigest t := by
        intro h
        exact hd (beq_iff_eq.mpr h.symm)
      simp [List.find?_cons_of_neg, hd, hne]

set_option maxRecDepth 10000 in
/-- C6 counterexample: two different texts that agree on their first 500
characters — take with the second, different text still returns the entry
saved for the first, not none. -/
theorem content_truncation_roundtrip_counterexample :
    ¬ c6text1 = c6text2 ∧
    (get_content_truncation (save_content_truncation [] 0 c6text1).2 c6text2).1
      = some ⟨contentHashDigest c6text1, String.mk (List.replicate 200 'a'), 0⟩ := by
  constructor
  · intro h
    have := congrArg (fun s => s.data.length) h
    simp [c6text1, c6text2] at this
  · have hpre : c6text2.data.take 500 = c6text1.data.take 500 := by
      simp [c6text1, c6text2, List.take_append_eq_append_take]
    have hd : contentHashDigest c6text2 = contentHashDigest c6text1 := by
      unfold contentHashDigest
      rw [hpre]
    have hprev : String.mk (c6text1.data.take 200) = String.mk (List.replicate 200 'a') := by
      simp [c6text1]
    simp [get_content_truncation, save_content_truncation, hd, hprev]

/-- C1 amended: whichever way the streamed response ends — completion,
early client disconnect, or a raised error — the cleanup releases the
upstream connection, marks the credential and tenant used, and records the
usage accumulated so far exactly once when either counter is non-zero;
when both accumulated counters are zero (for example a disconnect before
any usage chunk) no usage record is written at all. -/
theorem stream_cleanup_records_accumulated (st : Store) (today : Nat)
    (uid model tok : String) (chunks : List (Option (Nat × Nat))) (ex : StreamExit) :
    (stream_finalize st today uid model tok chunks ex).2.connection_closed = true ∧
    (stream_finalize st today uid model tok chunks ex).2.token_marked_used = true ∧
    (stream_finalize st today uid model tok chunks ex).2.user_marked_used = true ∧
    (¬ accumulateUsage (consumedChunks chunks ex) = (0, 0) →
      (stream_finalize st today uid model tok chunks ex).1.usage_records
        = st.usage_records ++
          [⟨uid, model, ((accumulateUsage (consumedChunks chunks ex)).1 : Int),
            ((accumulateUsage (consumedChunks chunks ex)).2 : Int), tok, today⟩] ∧
      (stream_finalize st today uid model tok chunks ex).2.recorded_usage
        = some (accumulateUsage (consumedChunks chunks ex))) ∧
    (accumulateUsage (consumedChunks chunks ex) = (0, 0) →
      (stream_finalize st today uid model tok chunks ex).1.usage_records
        = st.usage_records ∧
      (stream_finalize st today uid model tok chunks ex).2.recorded_usage = none) := by
  by_cases hz : accumulateUsage (consumedChunks chunks ex) = (0, 0)
  · have hcond : ¬ ((accumulateUsage (consumedChunks chunks ex)).1 ≠ 0 ∨
        (accumulateUsage (consumedChunks chunks ex)).2 ≠ 0) := by
      rw [hz]
      simp
    have hred : stream_finalize st today uid model tok chunks ex
        = (mark_user_used st uid, ⟨true, true, true, none⟩) := by
      simp only [stream_finalize]
      rw [if_neg hcond]
    rw [hred]
    refine ⟨rfl, rfl, rfl, fun h => absurd hz h, fun _ => ⟨?_, rfl⟩⟩
    simp [mark_user_used]
  · have hcond : (accumulateUsage (consumedChunks chunks ex)).1 ≠ 0 ∨
        (accumulateUsage (consumedChunks chunks ex)).2 ≠ 0 := by
      by_contra hcon
      push_neg at hcon
      exact hz (Prod.ext hcon.1 hcon.2)
    have hred : stream_finalize st today uid model tok chunks ex
        = (record_usage (mark_user_used st uid) today uid model
            ((accumulateUsage (consumedChunks chunks ex)).1 : Int)
            ((accumulateUsage (consumedChunks chunks ex)).2 : Int) tok,
           ⟨true, true, true, some (accumulateUsage (consumedChunks chunks ex))⟩) := by
      simp only [stream_finalize]
      rw [if_pos hcond]
    rw [hred]
    refine ⟨rfl, rfl, rfl, fun _ => ⟨?_, rfl⟩, fun h => absurd h hz⟩
    simp [record_usage, mark_user_used]

/-- Witness for the amended C1: a disconnect after the usage chunk records
the accumulated (7, 3). -/
theorem stream_cleanup_records_accumulated_witness :
    ¬ accumulateUsage (consumedChunks c1chunks (.clientDisconnected 2)) = (0, 0) ∧
    ((stream_finalize demoStore 10 "u1" "claude-sonnet-4.5" "t1" c1chunks
        (.clientDisconnected 2)).1.usage_records
      = demoStore.usage_records ++
        [⟨"u1", "claude-sonnet-4.5",
          ((accumulateUsage (consumedChunks c1chunks (.clientDisconnected 2))).1 : Int),
          ((accumulateUsage (consumedChunks c1chunks (.clientDisconnected 2))).2 : Int),
          "t1", 10⟩] ∧
     (stream_finalize demoStore 10 "u1" "claude-sonnet-4.5" "t1" c1chunks
        (.clientDisconnected 2)).2.recorded_usage
      = some (accumulateUsage (consumedChunks c1chunks (.clientDisconnected 2)))) :=
  ⟨by decide,
   (stream_cleanup_records_accumulated demoStore 10 "u1" "claude-sonnet-4.5" "t1"
      c1chunks (.clientDisconnected 2)).2.2.2.1 (by decide)⟩

/-- C1 counterexample: a client disconnect before any usage chunk leaves
the accumulated counters at (0, 0) and the cleanup then writes no usage
record — zero ledger records, not exactly one. -/
theorem stream_cleanup_zero_usage_counterexample :
    accumulateUsage (consumedChunks c1chunks (.clientDisconnected 0)) = (0, 0) ∧
    (stream_finalize demoStore 10 "u1" "claude-sonnet-4.5" "t1" c1chunks
        (.clientDisconnected 0)).2.recorded_usage = none ∧
    (stream_finalize demoStore 10 "u1" "claude-sonnet-4.5" "t1" c1chunks
        (.clientDisconnected 0)).1.usage_records = demoStore.usage_records :=
  ⟨by decide, by decide, by decide⟩

end Apollo
